import Mathlib

/-!
# Basler camera tools: the value legalizer, the configurator and the recorder

A shallow embedding of `src/pylon/pylonconfig.cpp` and `src/pylon/pylonrecord.cpp`.

* `int64_t` and `int` values are integers of `Int`; every arithmetic result is reduced to the
  two's complement range of its type (`wrap64`, `wrap32`), which is what the compiled code
  computes when a signed operation leaves the range.
* C++ `/` on integers truncates toward zero: `Int.tdiv`.
* A function that throws returns `Except`; the vendor SDK is an explicit environment whose
  calls either succeed or raise an exception with a description.
* The host of the recorder is explicit too: whether `fopen` returns a stream, and how many
  bytes can be written at the address of the file-name buffer.
-/

namespace Pylon

/-! ## Machine integers -/

/-- Smallest value of `int64_t`. -/
def INT64_MIN : Int := -9223372036854775808

/-- Largest value of `int64_t`. -/
def INT64_MAX : Int := 9223372036854775807

/-- Membership in the range of `int64_t`. -/
def InInt64 (x : Int) : Prop := INT64_MIN ≤ x ∧ x ≤ INT64_MAX

instance (x : Int) : Decidable (InInt64 x) := inferInstanceAs (Decidable (_ ∧ _))

/-- Reduction of an integer to the two's complement range of `int64_t`. -/
def wrap64 (x : Int) : Int :=
  (x + 9223372036854775808) % 18446744073709551616 - 9223372036854775808

/-- Reduction of an integer to the two's complement range of `int`. -/
def wrap32 (x : Int) : Int :=
  (x + 2147483648) % 4294967296 - 2147483648

instance {ε α : Type} [DecidableEq ε] [DecidableEq α] : DecidableEq (Except ε α) :=
  fun a b =>
    match a, b with
    | .ok x, .ok y =>
      if h : x = y then isTrue (by rw [h]) else isFalse (fun heq => h (Except.ok.inj heq))
    | .error x, .error y =>
      if h : x = y then isTrue (by rw [h]) else isFalse (fun heq => h (Except.error.inj heq))
    | .ok _, .error _ => isFalse (fun heq => Except.noConfusion heq)
    | .error _, .ok _ => isFalse (fun heq => Except.noConfusion heq)

/-! ## The value legalizer (`pylonconfig.cpp`, lines 76-101) -/

namespace pylonconfig

/-- The two `LOGICAL_ERROR_EXCEPTION`s that `Adjust` throws. -/
inductive AdjustError where
  /-- Thrown at line 80, `"Unexpected increment %d"`. -/
  | unexpectedIncrement (inc : Int)
  /-- Thrown at line 83, `"minimum bigger than maximum."`. -/
  | minimumBiggerThanMaximum
  deriving DecidableEq, Repr

/-- The description carried by the exception (the format string of the source; the
increment is rendered in decimal). -/
def AdjustError.description : AdjustError → String
  | .unexpectedIncrement inc => "Unexpected increment " ++ toString inc
  | .minimumBiggerThanMaximum => "minimum bigger than maximum."

/-- `int64_t Adjust (int64_t val, int64_t minimum, int64_t maximum, int64_t inc)`.
The subtraction, the multiplication and the addition of line 99 are `int64_t` operations. -/
def Adjust (val minimum maximum inc : Int) : Except AdjustError Int :=
  if inc ≤ 0 then .error (.unexpectedIncrement inc)
  else if minimum > maximum then .error .minimumBiggerThanMaximum
  else if val < minimum then .ok minimum
  else if val > maximum then .ok maximum
  else if inc = 1 then .ok val
  else .ok (wrap64 (minimum + wrap64 ((wrap64 (val - minimum)).tdiv inc * inc)))

end pylonconfig

/-! ## The vendor SDK as an environment -/

/-- Result of a call into the vendor SDK: `.error d` when the call raises a
`GenericException` whose `GetDescription ()` is `d`. -/
abbrev Sdk (α : Type) := Except String α

/-- What a process leaves behind: its exit status and what it wrote to standard error. -/
structure ProcessResult where
  exitCode : Int
  stderr : List String
  deriving DecidableEq, Repr

/-- `EXIT_SUCCESS` of `<stdlib.h>`. -/
def EXIT_SUCCESS : Int := 0

/-- `EXIT_FAILURE` of `<stdlib.h>`. -/
def EXIT_FAILURE : Int := 1

/-! ## The configurator (`pylonconfig.cpp`) -/

namespace pylonconfig

/-- The globals of `pylonconfig.cpp` that `parse_arguments` fills (lines 21-26); the
frame rate is a `float` and is carried as the text of its flag. -/
structure ConfigGlobals where
  folder_2_save_pylon_stream_file : String
  frame_rate : String
  AOI_width : Int
  AOI_height : Int
  AOI_x_offset : Int
  AOI_y_offset : Int
  deriving DecidableEq, Repr

/-- The camera as the configurator sees it: one field per SDK call of `main`, lines 40-62. -/
structure ConfigCamera where
  createFirstDevice : Sdk Unit
  openCamera : Sdk Unit
  exposureTimeRawGetMin : Sdk Int
  exposureTimeRawGetMax : Sdk Int
  exposureTimeRawGetInc : Sdk Int
  setExposureTimeRaw : Int → Sdk Unit
  setAcquisitionFrameRateAbs : String → Sdk Unit
  setWidth : Int → Sdk Unit
  setHeight : Int → Sdk Unit
  setOffsetX : Int → Sdk Unit
  setOffsetY : Int → Sdk Unit
  chunkSelectorSetValue : Sdk Unit
  chunkEnableSetValue : Sdk Unit
  featurePersistenceSave : String → Sdk Unit
  closeCamera : Sdk Unit

/-- The `try` block of the configurator's `main`, lines 38-63. A logical error of `Adjust`
is a `GenericException` like those of the SDK. -/
def tryBlock (g : ConfigGlobals) (filename : String) (camera : ConfigCamera) :
    Sdk Unit := do
  camera.createFirstDevice
  camera.openCamera
  let minimum ← camera.exposureTimeRawGetMin
  let maximum ← camera.exposureTimeRawGetMax
  let inc ← camera.exposureTimeRawGetInc
  let exposure ← (Adjust 35000 minimum maximum inc).mapError AdjustError.description
  camera.setExposureTimeRaw exposure
  camera.setAcquisitionFrameRateAbs g.frame_rate
  camera.setWidth g.AOI_width
  camera.setHeight g.AOI_height
  camera.setOffsetX g.AOI_x_offset
  camera.setOffsetY g.AOI_y_offset
  camera.chunkSelectorSetValue
  camera.chunkEnableSetValue
  camera.featurePersistenceSave filename
  camera.closeCamera

/-- The configurator's `main` after `parse_arguments` has returned and the file name has
been built (lines 37-67): the `try` block, the `catch` of line 64 that writes the
description to standard error, and the `return 0` of line 67 that follows both. -/
def main (g : ConfigGlobals) (filename : String) (camera : ConfigCamera) :
    ProcessResult :=
  match tryBlock g filename camera with
  | .ok () => { exitCode := 0, stderr := [] }
  | .error d => { exitCode := 0, stderr := ["An exception occured. Reason: " ++ d] }

/-- A camera on which every call succeeds and that reports the given exposure bounds. -/
def workingCamera (minimum maximum inc : Int) : ConfigCamera :=
  { createFirstDevice := .ok (),
    openCamera := .ok (),
    exposureTimeRawGetMin := .ok minimum,
    exposureTimeRawGetMax := .ok maximum,
    exposureTimeRawGetInc := .ok inc,
    setExposureTimeRaw := fun _ => .ok (),
    setAcquisitionFrameRateAbs := fun _ => .ok (),
    setWidth := fun _ => .ok (),
    setHeight := fun _ => .ok (),
    setOffsetX := fun _ => .ok (),
    setOffsetY := fun _ => .ok (),
    chunkSelectorSetValue := .ok (),
    chunkEnableSetValue := .ok (),
    featurePersistenceSave := fun _ => .ok (),
    closeCamera := .ok () }

/-- No camera is attached: device discovery raises. -/
def absentCamera : ConfigCamera :=
  { workingCamera 34 1000000 20 with createFirstDevice := .error "No device is available" }

/-- The globals as initialised at lines 21-26. -/
def defaultGlobals : ConfigGlobals :=
  { folder_2_save_pylon_stream_file := ".", frame_rate := "1", AOI_width := 2048,
    AOI_height := 2048, AOI_x_offset := 0, AOI_y_offset := 0 }

end pylonconfig

/-! ## The recorder (`pylonrecord.cpp`) -/

namespace pylonrecord

/-- The globals of `pylonrecord.cpp`, lines 43-45, zero-initialised. -/
structure RecorderGlobals where
  number_frames : Int
  frames_folder : String
  timestamp_folder : String
  deriving DecidableEq, Repr

/-- The globals before `parse_arguments` runs. -/
def RecorderGlobals.initial : RecorderGlobals :=
  { number_frames := 0, frames_folder := "", timestamp_folder := "" }

/-- The recorder's `parse_arguments`, lines 163-227, over the options that `getopt_long`
yields in turn for the command line (the option character and its `optarg`); the end of
the list is the `-1` of line 219. `sscanf_d s` is the integer that `sscanf (s, "%d", _)`
stores when it returns 1, `check_folder` the function of line 156 on the file system.
An `.error` is the process exiting inside the parser. -/
def parse_arguments (sscanf_d : String → Option Int) (check_folder : String → Bool) :
    List (Char × String) → RecorderGlobals → Except ProcessResult RecorderGlobals
  | [], g => .ok g
  | (c, optarg) :: rest, g =>
    if c = 'n' then
      match sscanf_d optarg with
      | some n => parse_arguments sscanf_d check_folder rest { g with number_frames := n }
      | none =>
        .error { exitCode := EXIT_FAILURE,
                 stderr := ["Option " ++ optarg ++ " is not an integer number!\n"] }
    else if c = 'f' then
      if check_folder optarg then
        parse_arguments sscanf_d check_folder rest { g with frames_folder := optarg }
      else
        .error { exitCode := EXIT_FAILURE,
                 stderr := ["Folder " ++ optarg ++ " does not exist!\n"] }
    else if c = 't' then
      if check_folder optarg then
        parse_arguments sscanf_d check_folder rest { g with timestamp_folder := optarg }
      else
        .error { exitCode := EXIT_FAILURE,
                 stderr := ["Folder " ++ optarg ++ " does not exist!\n"] }
    else if c = 'h' then
      .error { exitCode := EXIT_SUCCESS, stderr := [] }
    else
      .error { exitCode := EXIT_FAILURE, stderr := ["Unknown option\n"] }

/-- The payload types of a grab result that the loop distinguishes (line 135). -/
inductive PayloadType where
  | chunkData
  | other
  deriving DecidableEq, Repr

/-- A grab result as the loop reads it: `GrabSucceeded ()`, `GetPayloadType ()` and
`ChunkTimestamp.GetValue ()`, which raises when the chunk is not readable. -/
structure GrabResult where
  grabSucceeded : Bool
  payloadType : PayloadType
  chunkTimestamp : Sdk Int
  deriving DecidableEq, Repr

/-- What one turn of the loop meets: `RetrieveResult` times out and throws (line 119), or
it delivers a result, `clock_gettime` then yields `(tv_sec, tv_nsec)` or fails, and
`CImagePersistence::Save`, if it is reached for this result, succeeds or raises. -/
inductive LoopEvent where
  | timeout
  | retrieved (result : GrabResult) (clock : Option (Int × Int)) (save : Sdk Unit)
  deriving DecidableEq, Repr

/-- What the host gives `op_record`: whether `fopen (path, "w")` of line 104 returns a
stream (`false`: it returns `NULL`), and how many bytes can be written at the address that
`new char (...)` of line 107 returns. That expression allocates a single `char` (it is not
`new char [...]`), so the count is 1 plus whatever the allocator leaves behind the object. -/
structure Host where
  fopen : String → Bool
  usableBytes : Nat

/-- The effects of `op_record` so far: the path of line 103, the counter of line 109, the
rows written to the file at that path and the paths given to `CImagePersistence::Save`,
both in order. -/
structure RecordState where
  timestamp_path : String
  image_counter : Int
  csvRows : List String
  savedImages : List String
  deriving DecidableEq, Repr

/-- How `op_record` ends: it returns, it throws, it calls `exit`, it passes the `NULL`
stream of a failed `fopen` to `fprintf` or `fclose` and the process is killed, or `sprintf`
writes past the bytes of its buffer, after which the behaviour is undefined. -/
inductive RecordOutcome where
  | returned (s : RecordState)
  | threw (description : String) (s : RecordState)
  | exited (status : Int) (s : RecordState)
  | crashed (s : RecordState)
  | overran (s : RecordState)
  deriving DecidableEq, Repr

/-- Left padding of a digit string with `'0'` up to a width. -/
def zeroPad (width : Nat) (digits : String) : String :=
  String.mk (List.replicate (width - digits.length) '0') ++ digits

/-- The text `sprintf` produces for `"%04d"` and an `int`. -/
def sprintf_04d (i : Int) : String :=
  if i < 0 then "-" ++ zeroPad 3 (Nat.repr i.natAbs) else zeroPad 4 (Nat.repr i.toNat)

/-- Line 145: the text of `sprintf (image_filename, "%s%04d%s", prefix, image_counter,
suffix)` with `prefix = "/image-"` and `suffix = ".png"`. -/
def imageFilename (image_counter : Int) : String :=
  "/image-" ++ sprintf_04d image_counter ++ ".png"

/-- Line 146: `image_path = image_folder + image_filename`. -/
def imagePath (image_folder : String) (image_counter : Int) : String :=
  image_folder ++ imageFilename image_counter

/-- Line 144: `fprintf (timestamp_file, "%ld,%ld,%ld\n", ...)`. -/
def csvRow (chunkTimestamp tv_sec tv_nsec : Int) : String :=
  toString chunkTimestamp ++ "," ++ toString tv_sec ++ "," ++ toString tv_nsec ++ "\n"

/-- Lines 128-150, the body of `if (ptrGrabResult->GrabSucceeded ())` and its absent
`else`, in the order of the source; `.returned` is the body running to its end.
* line 136 throws when the payload is not chunk data;
* line 144 evaluates `ChunkTimestamp.GetValue ()`, which may raise, and then calls
  `fprintf` on the stream, which is `NULL` when `fopen` failed (`file = false`);
* line 145 writes the file name and its terminating zero into the buffer;
* line 147 saves the image, which may raise;
* line 149 increments the `int` counter.
What is written to standard output is left out. -/
def recordResult (image_folder : String) (file : Bool) (usableBytes : Nat) (r : GrabResult)
    (clock : Int × Int) (save : Sdk Unit) (s : RecordState) : RecordOutcome :=
  if r.grabSucceeded then
    if r.payloadType ≠ PayloadType.chunkData then
      .threw "Unexpected payload type received." s
    else
      match r.chunkTimestamp with
      | .error d => .threw d s
      | .ok t =>
        if file = false then .crashed s
        else if usableBytes < (imageFilename s.image_counter).length + 1 then
          .overran
            { timestamp_path := s.timestamp_path,
              image_counter := s.image_counter,
              csvRows := s.csvRows ++ [csvRow t clock.1 clock.2],
              savedImages := s.savedImages }
        else
          match save with
          | .error d =>
            .threw d
              { timestamp_path := s.timestamp_path,
                image_counter := s.image_counter,
                csvRows := s.csvRows ++ [csvRow t clock.1 clock.2],
                savedImages := s.savedImages }
          | .ok () =>
            .returned
              { timestamp_path := s.timestamp_path,
                image_counter := wrap32 (s.image_counter + 1),
                csvRows := s.csvRows ++ [csvRow t clock.1 clock.2],
                savedImages := s.savedImages ++ [imagePath image_folder s.image_counter] }
  else .returned s

/-- The loop of lines 117-151 and the `fclose` of line 152. The first numeric argument is
the number of results the grab session started by `StartGrabbing (number_images)` still
delivers: `IsGrabbing ()` holds while it is positive and each `RetrieveResult` lowers it
(lines 115-116). When the camera delivers nothing more, `RetrieveResult` times out. After
the loop `fclose` is called on the stream, `NULL` or not. -/
def recordLoop (image_folder : String) (file : Bool) (usableBytes : Nat) :
    Nat → List LoopEvent → RecordState → RecordOutcome
  | 0, _, s => if file = false then .crashed s else .returned s
  | _ + 1, [], s => .threw "timeout" s
  | _ + 1, .timeout :: _, s => .threw "timeout" s
  | _ + 1, .retrieved _ none _ :: _, s => .exited EXIT_FAILURE s
  | n + 1, .retrieved r (some clock) save :: rest, s =>
    match recordResult image_folder file usableBytes r clock save s with
    | .returned s1 => recordLoop image_folder file usableBytes n rest s1
    | other => other

/-- `void op_record (int number_images, string image_folder, string timestamp_folder)`,
lines 101-154, run on a host against the events the camera and the clock produce. The
result of `fopen` is not checked (line 104); the `int` is converted to the `size_t` that
`StartGrabbing` takes. -/
def op_record (host : Host) (number_images : Int) (image_folder timestamp_folder : String)
    (events : List LoopEvent) : RecordOutcome :=
  recordLoop image_folder (host.fopen (timestamp_folder ++ "/timestamp.csv")) host.usableBytes
    (number_images % 18446744073709551616).toNat events
    { timestamp_path := timestamp_folder ++ "/timestamp.csv",
      image_counter := 1, csvRows := [], savedImages := [] }

/-- The camera as the recorder's `main` sees it (lines 58-87) together with what it
delivers to the grab loop. -/
structure RecorderCamera where
  createFirstDevice : Sdk Unit
  openCamera : Sdk Unit
  chunkModeActiveIsWritable : Bool
  chunkModeActiveSetValue : Bool → Sdk Unit
  chunkSelectorSetValue : Sdk Unit
  chunkEnableSetValue : Sdk Unit
  events : List LoopEvent

/-- A call of `op_record` with its three arguments. -/
structure OpRecordCall where
  number_images : Int
  image_folder : String
  timestamp_folder : String
  deriving DecidableEq, Repr

/-- A run of the recorder: exit status (`none` when the process does not end by `return`
or `exit`), standard error, the call of `op_record` it made (if it got that far) and the
outcome of that call. -/
structure RecorderRun where
  exitCode : Option Int
  stderr : List String
  call : Option OpRecordCall
  outcome : Option RecordOutcome
  deriving DecidableEq, Repr

/-- Lines 58-81 of the recorder's `main`: what precedes the call of `op_record`. -/
def recorderSetup (camera : RecorderCamera) : Sdk Unit := do
  camera.createFirstDevice
  camera.openCamera
  if camera.chunkModeActiveIsWritable then
    camera.chunkModeActiveSetValue true
  else
    throw "The camera doesn't support chunk features"
  camera.chunkSelectorSetValue
  camera.chunkEnableSetValue

/-- The `catch` of lines 89-94. -/
def recorderCatch (d : String) (call : Option OpRecordCall) (outcome : Option RecordOutcome) :
    RecorderRun :=
  { exitCode := some 1, stderr := ["An exception occurred.", d], call := call,
    outcome := outcome }

/-- The recorder's `main`, lines 50-98, for a command line `argv`. The command line is
not read: `op_record` is called on the literals of line 83. -/
def main (_argv : List String) (host : Host) (camera : RecorderCamera) : RecorderRun :=
  match recorderSetup camera with
  | .error d => recorderCatch d none none
  | .ok () =>
    let call : OpRecordCall :=
      { number_images := 600, image_folder := ".", timestamp_folder := "." }
    match op_record host 600 "." "." camera.events with
    | .threw d s => recorderCatch d (some call) (some (.threw d s))
    | .exited status s =>
      { exitCode := some status, stderr := [], call := some call,
        outcome := some (.exited status s) }
    | .crashed s =>
      { exitCode := none, stderr := [], call := some call, outcome := some (.crashed s) }
    | .overran s =>
      { exitCode := none, stderr := [], call := some call, outcome := some (.overran s) }
    | .returned s =>
      match camera.chunkModeActiveSetValue false with
      | .error d => recorderCatch d (some call) (some (.returned s))
      | .ok () =>
        { exitCode := some 0, stderr := [], call := some call, outcome := some (.returned s) }

/-- The events of a run in which every retrieval delivers a result, every clock read
succeeds and every save succeeds: the results with the `(tv_sec, tv_nsec)` read after
each. -/
def deliveredEvents (rs : List (GrabResult × (Int × Int))) : List LoopEvent :=
  rs.map (fun p => LoopEvent.retrieved p.1 (some p.2) (.ok ()))

/-- A camera on which every call of `main` succeeds and that delivers the given events. -/
def workingCamera (events : List LoopEvent) : RecorderCamera :=
  { createFirstDevice := .ok (),
    openCamera := .ok (),
    chunkModeActiveIsWritable := true,
    chunkModeActiveSetValue := fun _ => .ok (),
    chunkSelectorSetValue := .ok (),
    chunkEnableSetValue := .ok (),
    events := events }

/-- A host on which every file can be opened for writing and whose allocator leaves 24
bytes usable behind the smallest allocation. -/
def workingHost : Host :=
  { fopen := fun _ => true, usableBytes := 24 }

/-- A host on which only files in the current directory can be opened for writing. -/
def currentDirectoryHost : Host :=
  { fopen := fun path => path = "./timestamp.csv", usableBytes := 24 }

/-- A host whose allocator leaves nothing behind the single `char` of line 107. -/
def exactHost : Host :=
  { fopen := fun _ => true, usableBytes := 1 }

/-- A successful grab with chunk data and the given device timestamp. -/
def goodGrab (chunkTimestamp : Int) : GrabResult :=
  { grabSucceeded := true, payloadType := .chunkData, chunkTimestamp := .ok chunkTimestamp }

end pylonrecord

/-! ## Lemmas on the machine arithmetic -/

theorem wrap64_eq_self {x : Int} (h : InInt64 x) : wrap64 x = x := by
  unfold InInt64 INT64_MIN INT64_MAX at h
  unfold wrap64
  omega

theorem wrap64_inInt64 (x : Int) : InInt64 (wrap64 x) := by
  unfold InInt64 INT64_MIN INT64_MAX wrap64
  omega

/-- Rounding a non-negative distance down to a multiple of a positive step. -/
theorem ediv_mul_bounds {d inc : Int} (hd : 0 ≤ d) (hinc : 0 < inc) :
    0 ≤ d / inc * inc ∧ d / inc * inc ≤ d ∧ d < d / inc * inc + inc := by
  have h1 := Int.emod_add_ediv d inc
  have h2 := Int.emod_nonneg d (ne_of_gt hinc)
  have h3 := Int.emod_lt_of_pos d hinc
  have h4 : d / inc * inc = inc * (d / inc) := Int.mul_comm _ _
  have h5 : 0 ≤ d / inc := Int.ediv_nonneg hd (le_of_lt hinc)
  have h6 : 0 ≤ inc * (d / inc) := Int.mul_nonneg (le_of_lt hinc) h5
  omega

namespace pylonconfig

/-- Line 99 when `val - minimum` is representable: no operation leaves the range and the
result is the mathematical one. -/
theorem Adjust_eq_floor_of_representable {val minimum maximum inc : Int}
    (hval : InInt64 val) (hmin : InInt64 minimum) (hinc : 0 < inc)
    (hlo : minimum ≤ val) (hhi : val ≤ maximum) (hrep : val - minimum ≤ INT64_MAX) :
    Adjust val minimum maximum inc = .ok (minimum + (val - minimum) / inc * inc) := by
  have hd : 0 ≤ val - minimum := by omega
  obtain ⟨b1, b2, _⟩ := ediv_mul_bounds hd hinc
  have hle : minimum ≤ maximum := le_trans hlo hhi
  unfold Adjust
  rw [if_neg (not_le.mpr hinc), if_neg (not_lt.mpr hle), if_neg (not_lt.mpr hlo),
    if_neg (not_lt.mpr hhi)]
  by_cases h1 : inc = 1
  · rw [if_pos h1]
    subst h1
    simp
  · rw [if_neg h1]
    have w1 : wrap64 (val - minimum) = val - minimum :=
      wrap64_eq_self ⟨by unfold INT64_MIN; omega, hrep⟩
    have w2 : (val - minimum).tdiv inc = (val - minimum) / inc :=
      Int.tdiv_eq_ediv hd (le_of_lt hinc)
    have w3 : wrap64 ((val - minimum) / inc * inc) = (val - minimum) / inc * inc :=
      wrap64_eq_self ⟨by unfold INT64_MIN; omega, by omega⟩
    have w4 : wrap64 (minimum + (val - minimum) / inc * inc)
        = minimum + (val - minimum) / inc * inc := by
      unfold InInt64 at hval hmin
      exact wrap64_eq_self ⟨by omega, by omega⟩
    rw [w1, w2, w3, w4]

/-- With valid bounds a value below the range is raised to the minimum (lines 85-87). -/
theorem Adjust_below {val minimum maximum inc : Int} (hinc : 0 < inc)
    (hle : minimum ≤ maximum) (h : val < minimum) :
    Adjust val minimum maximum inc = .ok minimum := by
  unfold Adjust
  rw [if_neg (not_le.mpr hinc), if_neg (not_lt.mpr hle), if_pos h]

/-- With valid bounds a value above the range is lowered to the maximum (lines 88-90). -/
theorem Adjust_above {val minimum maximum inc : Int} (hinc : 0 < inc)
    (hle : minimum ≤ maximum) (h : maximum < val) :
    Adjust val minimum maximum inc = .ok maximum := by
  unfold Adjust
  rw [if_neg (not_le.mpr hinc), if_neg (not_lt.mpr hle),
    if_neg (not_lt.mpr (le_of_lt (lt_of_le_of_lt hle h))), if_pos h]

/-- When the span of the range is representable, the result lies in the range. -/
theorem Adjust_in_range_of_representable {val minimum maximum inc : Int}
    (hval : InInt64 val) (hmin : InInt64 minimum) (hinc : 0 < inc) (hle : minimum ≤ maximum)
    (hrep : maximum - minimum ≤ INT64_MAX) :
    ∃ r, Adjust val minimum maximum inc = .ok r ∧ minimum ≤ r ∧ r ≤ maximum := by
  by_cases h1 : val < minimum
  · exact ⟨minimum, Adjust_below hinc hle h1, le_refl _, hle⟩
  · by_cases h2 : maximum < val
    · exact ⟨maximum, Adjust_above hinc hle h2, hle, le_refl _⟩
    · have hlo : minimum ≤ val := not_lt.mp h1
      have hhi : val ≤ maximum := not_lt.mp h2
      have hd : 0 ≤ val - minimum := by omega
      obtain ⟨b1, b2, _⟩ := ediv_mul_bounds hd hinc
      exact ⟨_, Adjust_eq_floor_of_representable hval hmin hinc hlo hhi (by omega),
        by omega, by omega⟩

/-- When the span of the range is representable, a value inside the range is rounded down
to the grid: the result is at most the value and less than one step below it. -/
theorem Adjust_floor_bounds_of_representable {val minimum maximum inc : Int}
    (hval : InInt64 val) (hmin : InInt64 minimum) (hinc : 0 < inc)
    (hlo : minimum ≤ val) (hhi : val ≤ maximum) (hrep : val - minimum ≤ INT64_MAX) :
    ∃ r, Adjust val minimum maximum inc = .ok r ∧ r = minimum + (val - minimum) / inc * inc
      ∧ r ≤ val ∧ val < r + inc ∧ (inc = 1 → r = val) := by
  have hd : 0 ≤ val - minimum := by omega
  obtain ⟨b1, b2, b3⟩ := ediv_mul_bounds hd hinc
  refine ⟨_, Adjust_eq_floor_of_representable hval hmin hinc hlo hhi hrep, rfl,
    by omega, by omega, ?_⟩
  intro h1
  subst h1
  simp

/-- When the span of the range is representable, the legalizer is monotone in the value. -/
theorem Adjust_monotone_of_representable {v1 v2 minimum maximum inc : Int}
    (hv1 : InInt64 v1) (hv2 : InInt64 v2) (hmin : InInt64 minimum) (hinc : 0 < inc)
    (hle : minimum ≤ maximum) (hrep : maximum - minimum ≤ INT64_MAX) (h12 : v1 ≤ v2) :
    ∃ r1 r2, Adjust v1 minimum maximum inc = .ok r1
      ∧ Adjust v2 minimum maximum inc = .ok r2 ∧ r1 ≤ r2 := by
  obtain ⟨r1, e1, lo1, hi1⟩ := Adjust_in_range_of_representable hv1 hmin hinc hle hrep
  obtain ⟨r2, e2, lo2, hi2⟩ := Adjust_in_range_of_representable hv2 hmin hinc hle hrep
  refine ⟨r1, r2, e1, e2, ?_⟩
  by_cases a1 : v1 < minimum
  · rw [Adjust_below hinc hle a1] at e1
    have : minimum = r1 := Except.ok.inj e1
    omega
  · by_cases a2 : maximum < v2
    · rw [Adjust_above hinc hle a2] at e2
      have : maximum = r2 := Except.ok.inj e2
      omega
    · have hlo1 : minimum ≤ v1 := not_lt.mp a1
      have hhi2 : v2 ≤ maximum := not_lt.mp a2
      rw [Adjust_eq_floor_of_representable hv1 hmin hinc hlo1 (by omega) (by omega)] at e1
      rw [Adjust_eq_floor_of_representable hv2 hmin hinc (by omega) hhi2 (by omega)] at e2
      have q1 : minimum + (v1 - minimum) / inc * inc = r1 := Except.ok.inj e1
      have q2 : minimum + (v2 - minimum) / inc * inc = r2 := Except.ok.inj e2
      have hq : (v1 - minimum) / inc ≤ (v2 - minimum) / inc :=
        Int.ediv_le_ediv hinc (by omega)
      have hm : (v1 - minimum) / inc * inc ≤ (v2 - minimum) / inc * inc :=
        Int.mul_le_mul_of_nonneg_right hq (le_of_lt hinc)
      omega

/-- The range property at the bounds 34 and 1000000 with the step 20. -/
theorem Adjust_in_range_of_representable_witness :
    ∃ r, Adjust 35000 34 1000000 20 = .ok r ∧ 34 ≤ r ∧ r ≤ 1000000 :=
  Adjust_in_range_of_representable (by decide) (by decide) (by decide)
    (by decide) (by decide)

/-- The rounding property at the bounds 34 and 1000000 with the step 20. -/
theorem Adjust_floor_bounds_of_representable_witness :
    ∃ r, Adjust 35000 34 1000000 20 = .ok r ∧ r = 34 + (35000 - 34) / 20 * 20
      ∧ r ≤ 35000 ∧ 35000 < r + 20 ∧ ((20 : Int) = 1 → r = 35000) :=
  Adjust_floor_bounds_of_representable (by decide) (by decide) (by decide) (by decide)
    (by decide) (by decide)

/-- Monotonicity at the bounds 34 and 1000000 with the step 20, for 35000 and 35001. -/
theorem Adjust_monotone_of_representable_witness :
    ∃ r1 r2, Adjust 35000 34 1000000 20 = .ok r1
      ∧ Adjust 35001 34 1000000 20 = .ok r2 ∧ r1 ≤ r2 :=
  Adjust_monotone_of_representable (by decide) (by decide) (by decide) (by decide)
    (by decide) (by decide) (by decide)

/-! ## The claims on the legalizer -/

/-- C1, defect at a concrete input: for the call of `main` with a device that reports the
exposure bounds `INT64_MIN` and 35000 and the step 20 (a positive step, minimum below
maximum), `Adjust` returns 35008, which is above the maximum: the difference
`val - minimum` of line 99 leaves `int64_t`. -/
theorem Adjust_exceeds_maximum_when_difference_overflows :
    InInt64 INT64_MIN ∧ (0 : Int) < 20 ∧ INT64_MIN ≤ 35000
      ∧ Adjust 35000 INT64_MIN 35000 20 = .ok 35008 ∧ ¬ ((35008 : Int) ≤ 35000) := by
  decide

/-- C2, defect at a concrete input: with the bounds `INT64_MIN` and 1000000 and the step 20
the value 35000 is inside the range, the greatest grid value not above it is
`INT64_MIN + floor((35000 - INT64_MIN) / 20) * 20 = 34992`, and `Adjust` returns 35008,
which is above the value. -/
theorem Adjust_overshoots_value_when_difference_overflows :
    INT64_MIN ≤ 35000 ∧ (35000 : Int) ≤ 1000000
      ∧ INT64_MIN + (35000 - INT64_MIN) / 20 * 20 = 34992
      ∧ Adjust 35000 INT64_MIN 1000000 20 = .ok 35008 ∧ ¬ ((35008 : Int) ≤ 35000) := by
  decide

/-- C3 as stated fails: above the range the maximum is returned although it is not on the
grid, `Adjust(10, 0, 5, 2) = 5` and 5 is no `0 + k * 2`. -/
theorem Adjust_returns_maximum_off_grid :
    Adjust 10 0 5 2 = .ok 5 ∧ ¬ ∃ k : Nat, (5 : Int) = 0 + (k : Int) * 2 := by
  refine ⟨by decide, ?_⟩
  rintro ⟨k, hk⟩
  omega

/-- C3 amended: for a step above 1 and valid bounds, a value above the range yields the
maximum itself, and a value not above the range whose difference to the minimum is
representable yields `minimum + k * inc` for a non-negative integer `k`. -/
theorem Adjust_maximum_or_on_grid (val minimum maximum inc : Int)
    (hval : InInt64 val) (hmin : InInt64 minimum) (hinc : 1 < inc) (hle : minimum ≤ maximum) :
    (maximum < val → Adjust val minimum maximum inc = .ok maximum)
      ∧ (val ≤ maximum → val - minimum ≤ INT64_MAX →
          ∃ k : Nat, Adjust val minimum maximum inc = .ok (minimum + (k : Int) * inc)) := by
  have hpos : 0 < inc := by omega
  refine ⟨fun h => Adjust_above hpos hle h, fun hhi hrep => ?_⟩
  by_cases hlo : val < minimum
  · exact ⟨0, by rw [Adjust_below hpos hle hlo]; simp⟩
  · have hlo2 : minimum ≤ val := not_lt.mp hlo
    have hq : 0 ≤ (val - minimum) / inc := Int.ediv_nonneg (by omega) (le_of_lt hpos)
    refine ⟨((val - minimum) / inc).toNat, ?_⟩
    rw [Adjust_eq_floor_of_representable hval hmin hpos hlo2 hhi hrep, Int.toNat_of_nonneg hq]

/-- C3 amended, at the configurator's call with the bounds 34 and 1000000 and the step 20. -/
theorem Adjust_maximum_or_on_grid_witness :
    ((1000000 : Int) < 35000 → Adjust 35000 34 1000000 20 = .ok 1000000)
      ∧ ((35000 : Int) ≤ 1000000 → (35000 : Int) - 34 ≤ INT64_MAX →
          ∃ k : Nat, Adjust 35000 34 1000000 20 = .ok (34 + (k : Int) * 20)) :=
  Adjust_maximum_or_on_grid 35000 34 1000000 20 (by decide) (by decide) (by decide) (by decide)

/-- C4: `Adjust` throws exactly when the step is not positive or the minimum is above the
maximum; whether it throws, and what, is the same for every value; otherwise it returns. -/
theorem Adjust_throws_iff (val minimum maximum inc : Int) :
    ((∃ e, Adjust val minimum maximum inc = .error e) ↔ (inc ≤ 0 ∨ minimum > maximum))
      ∧ (∀ other e, Adjust val minimum maximum inc = .error e ↔
          Adjust other minimum maximum inc = .error e)
      ∧ (¬ (inc ≤ 0 ∨ minimum > maximum) → ∃ r, Adjust val minimum maximum inc = .ok r) := by
  have hret : ∀ v, ¬ (inc ≤ 0 ∨ minimum > maximum) → ∃ r, Adjust v minimum maximum inc = .ok r := by
    intro v h
    have h1 : ¬ inc ≤ 0 := fun c => h (Or.inl c)
    have h2 : ¬ minimum > maximum := fun c => h (Or.inr c)
    unfold Adjust
    rw [if_neg h1, if_neg h2]
    split_ifs <;> exact ⟨_, rfl⟩
  have herr : ∀ v e, Adjust v minimum maximum inc = .error e ↔
      ((inc ≤ 0 ∧ e = .unexpectedIncrement inc)
        ∨ (¬ inc ≤ 0 ∧ minimum > maximum ∧ e = .minimumBiggerThanMaximum)) := by
    intro v e
    unfold Adjust
    by_cases h1 : inc ≤ 0
    · rw [if_pos h1]
      constructor
      · intro h
        exact Or.inl ⟨h1, (Except.error.inj h).symm⟩
      · rintro (⟨_, he⟩ | ⟨hn, _⟩)
        · rw [he]
        · exact absurd h1 hn
    · rw [if_neg h1]
      by_cases h2 : minimum > maximum
      · rw [if_pos h2]
        constructor
        · intro h
          exact Or.inr ⟨h1, h2, (Except.error.inj h).symm⟩
        · rintro (⟨hp, _⟩ | ⟨_, _, he⟩)
          · exact absurd hp h1
          · rw [he]
      · rw [if_neg h2]
        constructor
        · intro h
          split_ifs at h
        · rintro (⟨hp, _⟩ | ⟨_, hp, _⟩)
          · exact absurd hp h1
          · exact absurd hp h2
  refine ⟨?_, ?_, hret val⟩
  · constructor
    · rintro ⟨e, he⟩
      rcases (herr val e).mp he with ⟨h, _⟩ | ⟨_, h, _⟩
      · exact Or.inl h
      · exact Or.inr h
    · intro h
      by_cases h1 : inc ≤ 0
      · exact ⟨_, (herr val _).mpr (Or.inl ⟨h1, rfl⟩)⟩
      · rcases h with h | h
        · exact absurd h h1
        · exact ⟨_, (herr val _).mpr (Or.inr ⟨h1, h, rfl⟩)⟩
  · intro other e
    rw [herr val e, herr other e]

/-- C5 as stated fails: computed in `int64_t`, `minimum - 5` for the minimum `INT64_MIN` is
a large positive value and `maximum + 5` for the maximum `INT64_MAX` a large negative one,
so the first call returns the maximum 0 and the second the minimum 0. -/
theorem Adjust_clamp_arguments_wrap :
    Adjust (wrap64 (INT64_MIN - 5)) INT64_MIN 0 1 = .ok 0
      ∧ Adjust (wrap64 (INT64_MIN - 5)) INT64_MIN 0 1 ≠ .ok INT64_MIN
      ∧ Adjust (wrap64 (INT64_MAX + 5)) 0 INT64_MAX 1 = .ok 0
      ∧ Adjust (wrap64 (INT64_MAX + 5)) 0 INT64_MAX 1 ≠ .ok INT64_MAX := by
  decide

/-- C5 amended: with a positive step and valid bounds every value below the minimum yields
the minimum and every value above the maximum yields the maximum; `minimum - 5` and
`maximum + 5`, computed in `int64_t`, are such values when they are representable. -/
theorem Adjust_clamps (minimum maximum inc : Int)
    (hmin : InInt64 minimum) (hmax : InInt64 maximum) (hinc : 0 < inc) (hle : minimum ≤ maximum) :
    (∀ val, val < minimum → Adjust val minimum maximum inc = .ok minimum)
      ∧ (∀ val, maximum < val → Adjust val minimum maximum inc = .ok maximum)
      ∧ (INT64_MIN ≤ minimum - 5 → Adjust (wrap64 (minimum - 5)) minimum maximum inc = .ok minimum)
      ∧ (maximum + 5 ≤ INT64_MAX →
          Adjust (wrap64 (maximum + 5)) minimum maximum inc = .ok maximum) := by
  unfold InInt64 at hmin hmax
  refine ⟨fun val h => Adjust_below hinc hle h, fun val h => Adjust_above hinc hle h, ?_, ?_⟩
  · intro h
    have hw : wrap64 (minimum - 5) = minimum - 5 := wrap64_eq_self ⟨h, by omega⟩
    rw [hw]
    exact Adjust_below hinc hle (by omega)
  · intro h
    have hw : wrap64 (maximum + 5) = maximum + 5 := wrap64_eq_self ⟨by omega, h⟩
    rw [hw]
    exact Adjust_above hinc hle (by omega)

/-- C5 amended, at the bounds 34 and 1000000 with the step 20. -/
theorem Adjust_clamps_witness :
    (∀ val, val < 34 → Adjust val 34 1000000 20 = .ok 34)
      ∧ (∀ val, 1000000 < val → Adjust val 34 1000000 20 = .ok 1000000)
      ∧ (INT64_MIN ≤ (34 : Int) - 5 → Adjust (wrap64 (34 - 5)) 34 1000000 20 = .ok 34)
      ∧ ((1000000 : Int) + 5 ≤ INT64_MAX →
          Adjust (wrap64 (1000000 + 5)) 34 1000000 20 = .ok 1000000) :=
  Adjust_clamps 34 1000000 20 (by decide) (by decide) (by decide) (by decide)

/-- C6 as stated fails: the call does not return 34998, the quotient `(35000 - 34) / 20`
is not 1749, and `34 + 1749 * 20` is not 34998. -/
theorem Adjust_example_is_not_34998 :
    Adjust 35000 34 1000000 20 ≠ .ok 34998
      ∧ ((35000 : Int) - 34).tdiv 20 ≠ 1749
      ∧ (34 : Int) + 1749 * 20 ≠ 34998 := by
  decide

/-- C6 amended: `Adjust(35000, 34, 1000000, 20)` returns 34994, and
`34 + ((35000 - 34) / 20) * 20 = 34 + 1748 * 20 = 34994` in integer division. -/
theorem Adjust_example_is_34994 :
    Adjust 35000 34 1000000 20 = .ok 34994
      ∧ (34 : Int) + (((35000 : Int) - 34).tdiv 20) * 20 = 34 + 1748 * 20
      ∧ (34 : Int) + 1748 * 20 = 34994 := by
  decide

/-- C10, defect at a concrete input: with the bounds `INT64_MIN` and 35000 and the step 20
the value 35000 yields 35008 and the larger value 35001 yields 35000. -/
theorem Adjust_not_monotone_when_difference_overflows :
    (35000 : Int) ≤ 35001
      ∧ Adjust 35000 INT64_MIN 35000 20 = .ok 35008
      ∧ Adjust 35001 INT64_MIN 35000 20 = .ok 35000
      ∧ ¬ ((35008 : Int) ≤ 35000) := by
  decide

end pylonconfig

/-! ## The claim on the configurator's exit status -/

namespace pylonconfig

/-- The configurator's exit status is 0 whatever the camera does. -/
theorem main_exitCode_eq_zero (g : ConfigGlobals) (filename : String) (camera : ConfigCamera) :
    (main g filename camera).exitCode = 0 := by
  unfold main
  split <;> rfl

/-- C7, defect at concrete inputs: with no camera attached device discovery raises, and
with a camera that reports the step 0 `Adjust` raises its logical error; both exceptions
are caught and written to standard error, and the exit status is 0 in both runs. -/
theorem main_exits_zero_after_exception :
    main defaultGlobals "./pylon-cfg_2026-01-01+00:00:00.pfs" absentCamera
        = { exitCode := 0, stderr := ["An exception occured. Reason: No device is available"] }
      ∧ main defaultGlobals "./pylon-cfg_2026-01-01+00:00:00.pfs" (workingCamera 34 1000000 0)
        = { exitCode := 0, stderr := ["An exception occured. Reason: Unexpected increment 0"] } := by
  decide

end pylonconfig

/-! ## The claims on the recorder -/

namespace pylonrecord

/-- The recorder's `main` does not depend on the command line. -/
theorem main_ignores_argv (argv argv2 : List String) (host : Host) (camera : RecorderCamera) :
    main argv host camera = main argv2 host camera := rfl

/-- C8, defect at a concrete input: for the command line `-n 10 -f /tmp -t /tmp` the
parser would store 10, `/tmp` and `/tmp`, but `main` calls `op_record` with 600, `.` and
`.`; and for `-n abc`, which the parser rejects with a failure status, `main` opens the
device and makes the same call. -/
theorem main_records_literals_not_flags :
    parse_arguments (fun s => if s = "10" then some 10 else none) (fun s => s = "/tmp")
        [('n', "10"), ('f', "/tmp"), ('t', "/tmp")] RecorderGlobals.initial
        = .ok { number_frames := 10, frames_folder := "/tmp", timestamp_folder := "/tmp" }
      ∧ (main ["pylonrecord", "-n", "10", "-f", "/tmp", "-t", "/tmp"] workingHost
            (workingCamera (deliveredEvents [(goodGrab 7, (1, 2))]))).call
        = some { number_images := 600, image_folder := ".", timestamp_folder := "." }
      ∧ parse_arguments (fun s => if s = "10" then some 10 else none) (fun s => s = "/tmp")
          [('n', "abc")] RecorderGlobals.initial
        = .error { exitCode := EXIT_FAILURE,
                   stderr := ["Option abc is not an integer number!\n"] }
      ∧ (main ["pylonrecord", "-n", "abc"] workingHost
            (workingCamera (deliveredEvents [(goodGrab 7, (1, 2))]))).call
        = some { number_images := 600, image_folder := ".", timestamp_folder := "." } := by
  decide

/-- The file name of a counter in the non-negative range of `int`, with its terminating
zero, takes at most 22 bytes. -/
theorem imageFilename_bytes (c : Int) (h0 : 0 ≤ c) (h1 : c ≤ 2147483647) :
    (imageFilename c).length + 1 ≤ 22 := by
  have hneg : ¬ (c < 0) := by omega
  have hlt : c.toNat < 10 ^ 10 := by
    have : (c.toNat : Int) = c := Int.toNat_of_nonneg h0
    have h2 : (c.toNat : Int) < 10000000000 := by omega
    have h3 : c.toNat < 10000000000 := by exact_mod_cast h2
    simpa using h3
  have hrepr := Nat.repr_length c.toNat 10 (by decide) hlt
  unfold imageFilename sprintf_04d zeroPad
  rw [if_neg hneg]
  simp only [String.length_append, String.length_mk, List.length_replicate]
  have e1 : "/image-".length = 7 := rfl
  have e2 : ".png".length = 4 := rfl
  rw [e1, e2]
  omega

/-- Two ways `op_record` ends before it saves the image of a successful grab: when the
timestamp file cannot be opened, `fprintf` is called on the `NULL` stream; and when the
allocator leaves nothing behind the single `char` of line 107, `sprintf` writes the 16
bytes of the first file name past it. -/
theorem op_record_null_stream_and_short_buffer :
    op_record currentDirectoryHost 1 "." "/nonexistent-folder"
        (deliveredEvents [(goodGrab 10, (1, 2))])
      = .crashed { timestamp_path := "/nonexistent-folder/timestamp.csv", image_counter := 1,
                   csvRows := [], savedImages := [] }
      ∧ op_record exactHost 1 "." "." (deliveredEvents [(goodGrab 10, (1, 2))])
      = .overran { timestamp_path := "./timestamp.csv", image_counter := 1,
                   csvRows := ["10,1,2\n"], savedImages := [] } := by
  decide

end pylonrecord

end Pylon
